import Mathlib

/-!
Shallow embedding of the financial projection / comparison engine of the
repository (a German pension-calculator web app).  JavaScript numbers are
modelled as exact rationals; user-entered ages are modelled as integers
(the code subtracts them and multiplies by 12 before using them as
`Math.pow` exponents, so integer exponents / `zpow` are the faithful
reading).  The two code sites the claims are about are:

* `calculateFutureValue` in `src/unnamed/part_002` (lines 128-146): a
  memoised callback that validates its inputs, throws an `Error` with a
  message string on violation, and — crucially — wraps everything in a
  `try/catch` that logs the error and returns `0` to the caller.  We model
  the body before the catch as `calculateFutureValueChecked : … → Except
  String ℚ` (the string is the thrown message) and the whole callback,
  catch included, as `calculateFutureValue : … → ℚ`.

* the `comparison` memo of `src/src/pages/DebekaComparison.tsx`
  (lines 134-229) together with the `winner` selection (lines 304-309) and
  the tax-advantage display guard (line 435).
-/

namespace Nexttry

/-- `src/unnamed/part_002` lines 128-141, the body of the `try` block of
`calculateFutureValue`: guards first (throwing the exact message strings of
the source), then the zero-rate branch, then the annuity formula.  The
function takes no initial-capital argument — only a monthly payment, an
annual rate and a number of years. -/
def calculateFutureValueChecked (monthlyPayment annualRate : ℚ) (years : ℤ) :
    Except String ℚ :=
  if monthlyPayment < 0 ∨ annualRate < 0 ∨ years < 0 then
    Except.error "Values must be non-negative"
  else if years > 100 then
    Except.error "Investment period too long"
  else
    let monthlyRate := annualRate / 12
    let totalMonths := years * 12
    if monthlyRate = 0 then
      Except.ok (monthlyPayment * (totalMonths : ℚ))
    else
      Except.ok (monthlyPayment *
        (((1 + monthlyRate) ^ totalMonths - 1) / monthlyRate))

/-- `src/unnamed/part_002` lines 128-146, the whole callback: the `catch`
block swallows the thrown error (after `console.error`) and returns `0`
to the caller. -/
def calculateFutureValue (monthlyPayment annualRate : ℚ) (years : ℤ) : ℚ :=
  match calculateFutureValueChecked monthlyPayment annualRate years with
  | Except.ok v => v
  | Except.error _ => 0

/-- `src/src/pages/DebekaComparison.tsx` lines 49-54: the user inputs of
the three-vehicle comparison page. -/
structure ComparisonInputs where
  currentAge : ℤ
  monthlyContribution : ℚ
  currentAssets : ℚ
  retirementAge : ℤ

/-- Line 140: `const debekaGrowthRate = 0.06`. -/
def debekaGrowthRate : ℚ := 0.06

/-- Line 141: `const debekaCosts = 0.013`. -/
def debekaCosts : ℚ := 0.013

/-- Line 142: `const debekaNetGrowth = debekaGrowthRate - debekaCosts`. -/
def debekaNetGrowth : ℚ := debekaGrowthRate - debekaCosts

/-- Line 143: `const debekaMonthlyReturn = debekaNetGrowth / 12`. -/
def debekaMonthlyReturn : ℚ := debekaNetGrowth / 12

/-- Line 151: `const debekaErtragsanteil = 0.17`. -/
def debekaErtragsanteil : ℚ := 0.17

/-- Line 158: `const etfGrowthRate = 0.07`. -/
def etfGrowthRate : ℚ := 0.07

/-- Line 159: `const etfCosts = 0.003`. -/
def etfCosts : ℚ := 0.003

/-- Line 160: `const etfGrossReturn = etfGrowthRate - etfCosts`. -/
def etfGrossReturn : ℚ := etfGrowthRate - etfCosts

/-- Line 163: `const abgeltungssteuer = 0.26375`. -/
def abgeltungssteuer : ℚ := 0.26375

/-- Line 164: `const etfAnnualGains = etfGrossReturn`. -/
def etfAnnualGains : ℚ := etfGrossReturn

/-- Line 165: `const etfTaxOnGains = etfAnnualGains * abgeltungssteuer`. -/
def etfTaxOnGains : ℚ := etfAnnualGains * abgeltungssteuer

/-- Line 166: `const etfNetGrowth = etfGrossReturn - etfTaxOnGains`. -/
def etfNetGrowth : ℚ := etfGrossReturn - etfTaxOnGains

/-- Line 167: `const etfMonthlyReturn = etfNetGrowth / 12`. -/
def etfMonthlyReturn : ℚ := etfNetGrowth / 12

/-- Line 177: `const klassischGrowthRate = 0.02`. -/
def klassischGrowthRate : ℚ := 0.02

/-- Line 178: `const klassischCosts = 0.01`. -/
def klassischCosts : ℚ := 0.01

/-- Line 179: `const klassischNetGrowth = klassischGrowthRate - klassischCosts`. -/
def klassischNetGrowth : ℚ := klassischGrowthRate - klassischCosts

/-- Line 180: `const klassischMonthlyReturn = klassischNetGrowth / 12`. -/
def klassischMonthlyReturn : ℚ := klassischNetGrowth / 12

/-- Line 194: `const retirementYears = 20`. -/
def retirementYears : ℚ := 20

/-- The per-vehicle record returned by the `comparison` memo
(lines 200-224 of `DebekaComparison.tsx`). -/
structure VehicleResult where
  finalCapital : ℚ
  monthlyPension : ℚ
  grossMonthlyPension : ℚ
  totalTax : ℚ
  netReturn : ℚ
  taxRate : ℚ

/-- The full object returned by the `comparison` memo (lines 200-228). -/
structure ComparisonResult where
  debeka : VehicleResult
  etf : VehicleResult
  klassisch : VehicleResult
  taxAdvantage : ℚ
  totalContributions : ℚ
  years : ℤ

/-- `DebekaComparison.tsx` lines 134-229: the `comparison` memo, computed
line by line from the inputs.  `Math.pow` with an integer exponent is
`zpow`; all other operations are rational field operations. -/
def comparison (inputs : ComparisonInputs) : ComparisonResult :=
  let years : ℤ := inputs.retirementAge - inputs.currentAge
  let months : ℤ := years * 12
  let totalContributions :=
    inputs.monthlyContribution * (months : ℚ) + inputs.currentAssets
  let debekaFutureValue :=
    inputs.currentAssets * (1 + debekaNetGrowth) ^ years +
      inputs.monthlyContribution *
        (((1 + debekaMonthlyReturn) ^ months - 1) / debekaMonthlyReturn)
  let debekaGrossMonthlyPension := debekaFutureValue * 0.04 / 12
  let debekaTaxableAmount := debekaGrossMonthlyPension * debekaErtragsanteil
  let debekaTax := debekaTaxableAmount * 0.25
  let debekaNetMonthlyPension := debekaGrossMonthlyPension - debekaTax
  let etfFutureValue :=
    inputs.currentAssets * (1 + etfNetGrowth) ^ years +
      inputs.monthlyContribution *
        (((1 + etfMonthlyReturn) ^ months - 1) / etfMonthlyReturn)
  let etfNetMonthlyPension := etfFutureValue * 0.04 / 12
  let klassischFutureValue :=
    inputs.currentAssets * (1 + klassischNetGrowth) ^ years +
      inputs.monthlyContribution *
        (((1 + klassischMonthlyReturn) ^ months - 1) / klassischMonthlyReturn)
  let klassischGrossMonthlyPension := klassischFutureValue * 0.04 / 12
  let klassischTaxableAmount := klassischGrossMonthlyPension * debekaErtragsanteil
  let klassischTax := klassischTaxableAmount * 0.25
  let klassischNetMonthlyPension := klassischGrossMonthlyPension - klassischTax
  let debeka30YearTax := debekaTax * 12 * retirementYears
  let etfTaxDuringAccumulation :=
    inputs.monthlyContribution * 12 * (years : ℚ) * etfTaxOnGains / etfGrossReturn
  let totalEtfTax := etfTaxDuringAccumulation
  let taxAdvantage := totalEtfTax - debeka30YearTax
  { debeka :=
      { finalCapital := debekaFutureValue
        monthlyPension := debekaNetMonthlyPension
        grossMonthlyPension := debekaGrossMonthlyPension
        totalTax := debeka30YearTax
        netReturn := debekaNetGrowth * 100
        taxRate := debekaErtragsanteil * 100 }
    etf :=
      { finalCapital := etfFutureValue
        monthlyPension := etfNetMonthlyPension
        grossMonthlyPension := etfNetMonthlyPension
        totalTax := totalEtfTax
        netReturn := etfNetGrowth * 100
        taxRate := abgeltungssteuer * 100 }
    klassisch :=
      { finalCapital := klassischFutureValue
        monthlyPension := klassischNetMonthlyPension
        grossMonthlyPension := klassischGrossMonthlyPension
        totalTax := klassischTax * 12 * retirementYears
        netReturn := klassischNetGrowth * 100
        taxRate := debekaErtragsanteil * 100 }
    taxAdvantage := taxAdvantage
    totalContributions := totalContributions
    years := years }

/-- The three vehicles, in the order they are listed on the page
(debeka first, then etf, then klassisch). -/
inductive Vehicle where
  | debeka
  | etf
  | klassisch
deriving DecidableEq, Repr

/-- Position of a vehicle in the listed order. -/
def vehicleIndex : Vehicle → ℕ
  | Vehicle.debeka => 0
  | Vehicle.etf => 1
  | Vehicle.klassisch => 2

/-- The `monthlyPension` field of the given vehicle's result (the
net monthly pension, as stored by the source). -/
def netMonthlyPension (c : ComparisonResult) : Vehicle → ℚ
  | Vehicle.debeka => c.debeka.monthlyPension
  | Vehicle.etf => c.etf.monthlyPension
  | Vehicle.klassisch => c.klassisch.monthlyPension

/-- `DebekaComparison.tsx` lines 304-309: the winner selection, a chain of
strict comparisons on the three net monthly pensions. -/
def winner (c : ComparisonResult) : Vehicle :=
  if c.debeka.monthlyPension > c.etf.monthlyPension ∧
      c.debeka.monthlyPension > c.klassisch.monthlyPension then
    Vehicle.debeka
  else if c.etf.monthlyPension > c.klassisch.monthlyPension then
    Vehicle.etf
  else
    Vehicle.klassisch

/-- `DebekaComparison.tsx` line 435: the tax-advantage ALERT is rendered
exactly when `comparison.taxAdvantage > 0`.  This is one of two places
the page displays `taxAdvantage`; the other is the CTA section, which has
no guard (see `ctaDisplayedTaxAdvantage`). -/
def showTaxAdvantageAlert (c : ComparisonResult) : Bool :=
  decide (c.taxAdvantage > 0)

/-- `DebekaComparison.tsx` line 662: the CTA section renders
`formatCurrency(comparison.taxAdvantage)` UNCONDITIONALLY ("Mit dem
Debeka-Modell sparen Sie ... an Steuern"), so the figure handed to the
currency formatter there is the raw, possibly negative, tax advantage. -/
def ctaDisplayedTaxAdvantage (c : ComparisonResult) : ℚ :=
  c.taxAdvantage

/-- Specification formula of §4.1 (the claim's formula, stated for
comparison with the source): the lump sum and the contribution stream are
BOTH compounded at the monthly rate over `months = years * 12`, with the
zero-rate branch returning `initialCapital + monthlyContribution * months`. -/
def specFutureValue (initialCapital monthlyContribution annualRate : ℚ)
    (years : ℤ) : ℚ :=
  let monthlyRate := annualRate / 12
  let months := years * 12
  if monthlyRate = 0 then
    initialCapital + monthlyContribution * (months : ℚ)
  else
    initialCapital * (1 + monthlyRate) ^ months +
      monthlyContribution * (((1 + monthlyRate) ^ months - 1) / monthlyRate)

/-- One accumulation year under the specification's reading of annual
capital-gains taxation (§4.4 step 6): the year's gain is the gross ETF
return on the running balance, tax is that gain times the statutory rate,
and the year's contributions are added.  State is (balance, tax paid so
far). -/
def specEtfStep (monthlyContribution : ℚ) (st : ℚ × ℚ) : ℚ × ℚ :=
  let gain := st.1 * etfGrossReturn
  let tax := gain * abgeltungssteuer
  (st.1 + gain - tax + 12 * monthlyContribution, st.2 + tax)

/-- Iterated accumulation of `specEtfStep` from an initial balance. -/
def specEtfAccum (initialCapital monthlyContribution : ℚ) : ℕ → ℚ × ℚ
  | 0 => (initialCapital, 0)
  | n + 1 => specEtfStep monthlyContribution
      (specEtfAccum initialCapital monthlyContribution n)

/-- Specification reading of the ETF `totalTaxPaid` (§4.4 step 6): the
running sum, over the accumulation years, of each year's
gross-return-based gain times the tax rate. -/
def specEtfTotalTax (initialCapital monthlyContribution : ℚ) (years : ℕ) : ℚ :=
  (specEtfAccum initialCapital monthlyContribution years).2

/-- The general shape of the three inline future-value expressions of
`DebekaComparison.tsx` (lines 146-148, 169-171, 183-185), abstracted over
the annual net growth rate `g`: the lump sum is compounded at the ANNUAL
rate over `years`, the contribution stream at the monthly rate `g / 12`
over `years * 12` months. -/
def fvFormula (c m g : ℚ) (y : ℤ) : ℚ :=
  c * (1 + g) ^ y + m * (((1 + g / 12) ^ (y * 12) - 1) / (g / 12))

/-! ## Helper lemmas about the winner selection -/

/-- The vehicle selected by the source's strict-comparison chain always
attains the maximal net monthly pension of the three. -/
lemma le_winner_pension (c : ComparisonResult) (v : Vehicle) :
    netMonthlyPension c v ≤ netMonthlyPension c (winner c) := by
  unfold winner
  split_ifs with h1 h2
  · obtain ⟨h1a, h1b⟩ := h1
    cases v <;> simp [netMonthlyPension] <;> linarith
  · push_neg at h1
    cases v
    · simp only [netMonthlyPension]
      rcases le_or_lt c.debeka.monthlyPension c.etf.monthlyPension with h | h
      · exact h
      · have := h1 h
        linarith
    · simp [netMonthlyPension]
    · simp only [netMonthlyPension]
      linarith
  · push_neg at h1
    push_neg at h2
    cases v
    · simp only [netMonthlyPension]
      rcases le_or_lt c.debeka.monthlyPension c.etf.monthlyPension with h | h
      · linarith
      · have := h1 h
        linarith
    · simp only [netMonthlyPension]
      linarith
    · simp [netMonthlyPension]

/-- Among the vehicles attaining the winner's pension value, the selected
winner is the LAST-listed one: every tying vehicle has a listing index at
most the winner's. -/
lemma winner_index_ge (c : ComparisonResult) (v : Vehicle)
    (h : netMonthlyPension c v = netMonthlyPension c (winner c)) :
    vehicleIndex v ≤ vehicleIndex (winner c) := by
  revert h
  unfold winner
  split_ifs with h1 h2 <;> intro h
  · obtain ⟨h1a, h1b⟩ := h1
    cases v <;> simp [vehicleIndex] <;>
      simp [netMonthlyPension] at h <;> linarith
  · cases v <;> simp [vehicleIndex] <;>
      simp [netMonthlyPension] at h <;> linarith
  · cases v <;> simp [vehicleIndex]

/-! ## Bridge lemmas: the future-value expressions as geometric sums -/

/-- When the guards of `calculateFutureValueChecked` pass, no error is
thrown and the result is the zero-rate or annuity branch. -/
lemma checked_not_thrown (monthlyPayment annualRate : ℚ) (years : ℤ)
    (hm : 0 ≤ monthlyPayment) (hr : 0 ≤ annualRate) (hy0 : 0 ≤ years)
    (hy : years ≤ 100) :
    calculateFutureValueChecked monthlyPayment annualRate years =
      (if annualRate / 12 = 0 then
        Except.ok (monthlyPayment * ((years * 12 : ℤ) : ℚ))
      else
        Except.ok (monthlyPayment *
          (((1 + annualRate / 12) ^ (years * 12) - 1) / (annualRate / 12)))) := by
  unfold calculateFutureValueChecked
  rw [if_neg, if_neg]
  · omega
  · push_neg
    refine ⟨by linarith, by linarith, by omega⟩

/-- On valid inputs, `calculateFutureValue` is the monthly payment times
the geometric sum of the monthly growth factors — uniformly, the zero-rate
branch included. -/
lemma calculateFutureValue_eq_sum (monthlyPayment annualRate : ℚ) (years : ℤ)
    (hm : 0 ≤ monthlyPayment) (hr : 0 ≤ annualRate) (hy0 : 0 ≤ years)
    (hy : years ≤ 100) :
    calculateFutureValue monthlyPayment annualRate years =
      monthlyPayment *
        ∑ i ∈ Finset.range ((years * 12).toNat), (1 + annualRate / 12) ^ i := by
  unfold calculateFutureValue
  rw [checked_not_thrown monthlyPayment annualRate years hm hr hy0 hy]
  lift years to ℕ using hy0 with n
  have hcast : ((n : ℤ) * 12) = ((n * 12 : ℕ) : ℤ) := by push_cast; ring
  by_cases hz : annualRate / 12 = 0
  · have hr0 : annualRate = 0 := by
      rcases div_eq_zero_iff.mp hz with h | h
      · exact h
      · norm_num at h
    rw [if_pos hz]
    subst hr0
    show monthlyPayment * (((n : ℤ) * 12 : ℤ) : ℚ) =
      monthlyPayment * ∑ i ∈ Finset.range (((n : ℤ) * 12).toNat), (1 + 0 / 12) ^ i
    rw [hcast, Int.toNat_natCast]
    push_cast
    simp
  · rw [if_neg hz]
    have hx : (1 : ℚ) + annualRate / 12 ≠ 1 := by
      intro h
      apply hz
      linarith
    show monthlyPayment *
        (((1 + annualRate / 12) ^ ((n : ℤ) * 12) - 1) / (annualRate / 12)) =
      monthlyPayment *
        ∑ i ∈ Finset.range (((n : ℤ) * 12).toNat), (1 + annualRate / 12) ^ i
    rw [geom_sum_eq hx]
    rw [hcast, Int.toNat_natCast, zpow_natCast]
    ring_nf

/-- On valid inputs with a nonzero rate, `calculateFutureValue` returns
exactly the annuity branch: a pure contribution-stream value with no
initial-capital term. -/
lemma calculateFutureValue_formula (monthlyPayment annualRate : ℚ) (years : ℤ)
    (hm : 0 ≤ monthlyPayment) (hr : 0 ≤ annualRate) (hrne : annualRate ≠ 0)
    (hy0 : 0 ≤ years) (hy : years ≤ 100) :
    calculateFutureValue monthlyPayment annualRate years =
      monthlyPayment *
        (((1 + annualRate / 12) ^ (years * 12) - 1) / (annualRate / 12)) := by
  unfold calculateFutureValue
  rw [checked_not_thrown monthlyPayment annualRate years hm hr hy0 hy]
  rw [if_neg (div_ne_zero hrne (by norm_num))]

/-- For a nonzero rate, the comparison page's future-value shape is the
annually compounded lump sum plus the geometric-sum annuity value. -/
lemma fvFormula_eq_sum (c m g : ℚ) (n : ℕ) (hg : g ≠ 0) :
    fvFormula c m g (n : ℤ) =
      c * (1 + g) ^ n + m * ∑ i ∈ Finset.range (n * 12), (1 + g / 12) ^ i := by
  unfold fvFormula
  have hz : g / 12 ≠ 0 := div_ne_zero hg (by norm_num)
  have hx : (1 : ℚ) + g / 12 ≠ 1 := by
    intro h
    apply hz
    linarith
  rw [geom_sum_eq hx]
  have hcast : ((n : ℤ) * 12) = ((n * 12 : ℕ) : ℤ) := by push_cast; ring
  rw [hcast, zpow_natCast, zpow_natCast]
  ring_nf

/-- At rate zero the rational-field reading of the comparison page's
future-value shape degenerates to the bare lump sum (the annuity quotient
is a 0/0 that the field embedding collapses to 0). -/
lemma fvFormula_zero_rate (c m : ℚ) (y : ℤ) : fvFormula c m 0 y = c := by
  unfold fvFormula
  norm_num

/-! ## Monotonicity lemmas -/

lemma one_add_div12_nonneg {r : ℚ} (hr : 0 ≤ r) : (0 : ℚ) ≤ 1 + r / 12 := by
  have : (0 : ℚ) ≤ r / 12 := by positivity
  linarith

lemma sum_pow_nonneg {a : ℚ} (h : 0 ≤ a) (N : ℕ) :
    0 ≤ ∑ i ∈ Finset.range N, a ^ i :=
  Finset.sum_nonneg fun i _ => pow_nonneg h i

lemma sum_pow_mono_base {a b : ℚ} (h0 : 0 ≤ a) (hab : a ≤ b) (N : ℕ) :
    ∑ i ∈ Finset.range N, a ^ i ≤ ∑ i ∈ Finset.range N, b ^ i :=
  Finset.sum_le_sum fun i _ => pow_le_pow_left₀ h0 hab i

lemma sum_pow_mono_card {a : ℚ} (h0 : 0 ≤ a) {N M : ℕ} (h : N ≤ M) :
    ∑ i ∈ Finset.range N, a ^ i ≤ ∑ i ∈ Finset.range M, a ^ i :=
  Finset.sum_le_sum_of_subset_of_nonneg (Finset.range_subset.mpr h)
    fun i _ _ => pow_nonneg h0 i

lemma calcFV_mono_payment (m₁ m₂ r : ℚ) (y : ℤ) (hm1 : 0 ≤ m₁) (hm : m₁ ≤ m₂)
    (hr : 0 ≤ r) (hy0 : 0 ≤ y) (hy : y ≤ 100) :
    calculateFutureValue m₁ r y ≤ calculateFutureValue m₂ r y := by
  rw [calculateFutureValue_eq_sum m₁ r y hm1 hr hy0 hy,
    calculateFutureValue_eq_sum m₂ r y (le_trans hm1 hm) hr hy0 hy]
  exact mul_le_mul_of_nonneg_right hm (sum_pow_nonneg (one_add_div12_nonneg hr) _)

lemma calcFV_mono_rate (m r₁ r₂ : ℚ) (y : ℤ) (hm : 0 ≤ m) (hr1 : 0 ≤ r₁)
    (hr : r₁ ≤ r₂) (hy0 : 0 ≤ y) (hy : y ≤ 100) :
    calculateFutureValue m r₁ y ≤ calculateFutureValue m r₂ y := by
  rw [calculateFutureValue_eq_sum m r₁ y hm hr1 hy0 hy,
    calculateFutureValue_eq_sum m r₂ y hm (le_trans hr1 hr) hy0 hy]
  refine mul_le_mul_of_nonneg_left ?_ hm
  refine sum_pow_mono_base (one_add_div12_nonneg hr1) ?_ _
  have : r₁ / 12 ≤ r₂ / 12 := by linarith
  linarith

lemma calcFV_mono_years (m r : ℚ) (y₁ y₂ : ℤ) (hm : 0 ≤ m) (hr : 0 ≤ r)
    (hy0 : 0 ≤ y₁) (h12 : y₁ ≤ y₂) (hy : y₂ ≤ 100) :
    calculateFutureValue m r y₁ ≤ calculateFutureValue m r y₂ := by
  rw [calculateFutureValue_eq_sum m r y₁ hm hr hy0 (le_trans h12 hy),
    calculateFutureValue_eq_sum m r y₂ hm hr (le_trans hy0 h12) hy]
  refine mul_le_mul_of_nonneg_left ?_ hm
  exact sum_pow_mono_card (one_add_div12_nonneg hr) (Int.toNat_le_toNat (by omega))

lemma fvFormula_mono_capital (c₁ c₂ m g : ℚ) (y : ℤ) (hc : c₁ ≤ c₂)
    (hg : 0 ≤ g) :
    fvFormula c₁ m g y ≤ fvFormula c₂ m g y := by
  unfold fvFormula
  have h1 : (0 : ℚ) ≤ 1 + g := by linarith
  exact add_le_add_right
    (mul_le_mul_of_nonneg_right hc (zpow_nonneg h1 y)) _

lemma fvFormula_mono_contribution (c m₁ m₂ g : ℚ) (y : ℤ) (hm : m₁ ≤ m₂)
    (hg : 0 ≤ g) (hy0 : 0 ≤ y) :
    fvFormula c m₁ g y ≤ fvFormula c m₂ g y := by
  lift y to ℕ using hy0 with n
  by_cases hgz : g = 0
  · subst hgz
    rw [fvFormula_zero_rate, fvFormula_zero_rate]
  · rw [fvFormula_eq_sum c m₁ g n hgz, fvFormula_eq_sum c m₂ g n hgz]
    refine add_le_add_left ?_ _
    exact mul_le_mul_of_nonneg_right hm
      (sum_pow_nonneg (one_add_div12_nonneg hg) _)

lemma fvFormula_mono_rate (c m g₁ g₂ : ℚ) (y : ℤ) (hc : 0 ≤ c) (hm : 0 ≤ m)
    (hg1 : 0 < g₁) (hg : g₁ ≤ g₂) (hy0 : 0 ≤ y) :
    fvFormula c m g₁ y ≤ fvFormula c m g₂ y := by
  lift y to ℕ using hy0 with n
  rw [fvFormula_eq_sum c m g₁ n (ne_of_gt hg1),
    fvFormula_eq_sum c m g₂ n (by linarith)]
  refine add_le_add ?_ ?_
  · refine mul_le_mul_of_nonneg_left ?_ hc
    exact pow_le_pow_left₀ (by linarith) (by linarith) n
  · refine mul_le_mul_of_nonneg_left ?_ hm
    refine sum_pow_mono_base (one_add_div12_nonneg (le_of_lt hg1)) ?_ _
    have : g₁ / 12 ≤ g₂ / 12 := by linarith
    linarith

lemma fvFormula_mono_years (c m g : ℚ) (y₁ y₂ : ℤ) (hc : 0 ≤ c) (hm : 0 ≤ m)
    (hg : 0 ≤ g) (hy0 : 0 ≤ y₁) (h12 : y₁ ≤ y₂) :
    fvFormula c m g y₁ ≤ fvFormula c m g y₂ := by
  have hy20 : 0 ≤ y₂ := le_trans hy0 h12
  lift y₁ to ℕ using hy0 with n₁
  lift y₂ to ℕ using hy20 with n₂
  have hn : n₁ ≤ n₂ := by exact_mod_cast h12
  by_cases hgz : g = 0
  · subst hgz
    rw [fvFormula_zero_rate, fvFormula_zero_rate]
  · rw [fvFormula_eq_sum c m g n₁ hgz, fvFormula_eq_sum c m g n₂ hgz]
    refine add_le_add ?_ ?_
    · refine mul_le_mul_of_nonneg_left ?_ hc
      exact pow_le_pow_right₀ (by linarith) hn
    · refine mul_le_mul_of_nonneg_left ?_ hm
      exact sum_pow_mono_card (one_add_div12_nonneg hg) (by omega)

/-! ## Guard lemmas for the part_002 callback -/

/-- Any negative input makes the first guard throw. -/
lemma checked_invalid (m r : ℚ) (y : ℤ) (h : m < 0 ∨ r < 0 ∨ y < 0) :
    calculateFutureValueChecked m r y =
      Except.error "Values must be non-negative" := by
  unfold calculateFutureValueChecked
  rw [if_pos h]

/-- A horizon beyond 100 years makes the second guard throw. -/
lemma checked_range (m r : ℚ) (y : ℤ) (hm : 0 ≤ m) (hr : 0 ≤ r)
    (hy : 100 < y) :
    calculateFutureValueChecked m r y =
      Except.error "Investment period too long" := by
  unfold calculateFutureValueChecked
  rw [if_neg, if_pos hy]
  push_neg
  exact ⟨hm, hr, by omega⟩

/-- Whatever error is thrown inside the callback, the catch block turns it
into the numeric result 0. -/
lemma cfv_of_error (m r : ℚ) (y : ℤ) (s : String)
    (h : calculateFutureValueChecked m r y = Except.error s) :
    calculateFutureValue m r y = 0 := by
  unfold calculateFutureValue
  rw [h]

/-! ## Claims -/

/-- Claim C1, counterexample: at currentAge 35, retirementAge 36 (one
accumulation year), contribution 0 and assets 1200, the Debeka future
value computed by the comparison page differs from the claimed formula
(which would compound the lump sum at the monthly rate over 12 months):
the source compounds the lump sum at the annual rate over 1 year. -/
theorem C1_counterexample :
    (comparison ⟨35, 0, 1200, 36⟩).debeka.finalCapital ≠
      specFutureValue 1200 0 debekaNetGrowth 1 := by
  norm_num [comparison, specFutureValue, debekaNetGrowth, debekaGrowthRate,
    debekaCosts, debekaMonthlyReturn]

/-- Claim C1 as amended: each of the three vehicles' future values is
`initialCapital * (1 + netGrowth) ^ years` — the lump sum compounded at
the ANNUAL net rate over years, not at the monthly rate over months —
plus the contribution annuity at the monthly rate (the `fvFormula`
shape); and the part_002 `calculateFutureValue` takes no initial capital
at all, returning only the contribution annuity term. -/
theorem C1_lump_sum_compounding :
    (∀ i : ComparisonInputs,
      (comparison i).debeka.finalCapital =
        fvFormula i.currentAssets i.monthlyContribution debekaNetGrowth
          (i.retirementAge - i.currentAge) ∧
      (comparison i).etf.finalCapital =
        fvFormula i.currentAssets i.monthlyContribution etfNetGrowth
          (i.retirementAge - i.currentAge) ∧
      (comparison i).klassisch.finalCapital =
        fvFormula i.currentAssets i.monthlyContribution klassischNetGrowth
          (i.retirementAge - i.currentAge)) ∧
    (∀ (m r : ℚ) (y : ℤ), 0 ≤ m → 0 ≤ r → r ≠ 0 → 0 ≤ y → y ≤ 100 →
      calculateFutureValue m r y =
        m * (((1 + r / 12) ^ (y * 12) - 1) / (r / 12))) :=
  ⟨fun _ => ⟨rfl, rfl, rfl⟩,
   fun m r y hm hr hrne hy0 hy =>
     calculateFutureValue_formula m r y hm hr hrne hy0 hy⟩

/-- Witness for C1's amended theorem at concrete inputs. -/
theorem C1_lump_sum_compounding_witness :
    (comparison ⟨35, 300, 1200, 36⟩).debeka.finalCapital =
      fvFormula 1200 300 debekaNetGrowth 1 ∧
    calculateFutureValue 300 (1/20) 2 =
      300 * (((1 + (1/20 : ℚ) / 12) ^ ((2 : ℤ) * 12) - 1) / ((1/20 : ℚ) / 12)) :=
  ⟨(C1_lump_sum_compounding.1 ⟨35, 300, 1200, 36⟩).1,
   C1_lump_sum_compounding.2 300 (1/20) 2 (by norm_num) (by norm_num)
     (by norm_num) (by norm_num) (by norm_num)⟩

/-- Claim C2, counterexample: called with negative years, the callback
throws internally but the caller receives the default numeric value 0,
not an error. -/
theorem C2_counterexample :
    calculateFutureValueChecked 100 (1/10) (-1) =
      Except.error "Values must be non-negative" ∧
    calculateFutureValue 100 (1/10) (-1) = 0 := by
  norm_num [calculateFutureValue, calculateFutureValueChecked]

/-- Claim C2 as amended: on a negative contribution, rate or years, and on
years above 100, `calculateFutureValue` raises the corresponding error
internally (with the source's message strings), but the try/catch swallows
it and the caller always receives 0 in place of an error. -/
theorem C2_error_swallowed :
    (∀ (m r : ℚ) (y : ℤ), (m < 0 ∨ r < 0 ∨ y < 0) →
      calculateFutureValueChecked m r y =
        Except.error "Values must be non-negative" ∧
      calculateFutureValue m r y = 0) ∧
    (∀ (m r : ℚ) (y : ℤ), 0 ≤ m → 0 ≤ r → 100 < y →
      calculateFutureValueChecked m r y =
        Except.error "Investment period too long" ∧
      calculateFutureValue m r y = 0) :=
  ⟨fun m r y h =>
    ⟨checked_invalid m r y h, cfv_of_error m r y _ (checked_invalid m r y h)⟩,
   fun m r y hm hr hy =>
    ⟨checked_range m r y hm hr hy,
     cfv_of_error m r y _ (checked_range m r y hm hr hy)⟩⟩

/-- Witness for C2's amended theorem at concrete inputs. -/
theorem C2_error_swallowed_witness :
    ((-2 : ℚ) < 0 ∨ (1/2 : ℚ) < 0 ∨ (5 : ℤ) < 0) ∧
    calculateFutureValue (-2) (1/2) 5 = 0 ∧
    calculateFutureValueChecked 1 (1/2) 101 =
      Except.error "Investment period too long" ∧
    calculateFutureValue 1 (1/2) 101 = 0 :=
  ⟨Or.inl (by norm_num),
   (C2_error_swallowed.1 (-2) (1/2) 5 (Or.inl (by norm_num))).2,
   (C2_error_swallowed.2 1 (1/2) 101 (by norm_num) (by norm_num)
     (by norm_num)).1,
   (C2_error_swallowed.2 1 (1/2) 101 (by norm_num) (by norm_num)
     (by norm_num)).2⟩

/-- Claim C3, counterexample: at rate 0 the code returns only the
contribution term; with monthly payment 5 over 2 years it returns 120,
not 100 + 120 for an initial capital of 100 — the function has no
initial-capital parameter and no c term is included. -/
theorem C3_counterexample :
    calculateFutureValue 5 0 2 = 5 * 2 * 12 ∧
    calculateFutureValue 5 0 2 ≠ 100 + 5 * 2 * 12 := by
  norm_num [calculateFutureValue, calculateFutureValueChecked]

/-- Claim C3 as amended: at annual rate 0 on valid inputs the code
returns exactly `monthlyPayment * (years * 12)` — the degenerate
no-growth case without any initial-capital summand. -/
theorem C3_zero_rate :
    ∀ (m : ℚ) (y : ℤ), 0 ≤ m → 0 ≤ y → y ≤ 100 →
      calculateFutureValue m 0 y = m * ((y * 12 : ℤ) : ℚ) := by
  intro m y hm hy0 hy
  unfold calculateFutureValue
  rw [checked_not_thrown m 0 y hm le_rfl hy0 hy]
  rw [if_pos (by norm_num)]

/-- Witness for C3's amended theorem at concrete inputs. -/
theorem C3_zero_rate_witness : calculateFutureValue 5 0 2 = 120 :=
  (C3_zero_rate 5 2 (by norm_num) (by norm_num) (by norm_num)).trans
    (by norm_num)

/-- Claim C4, counterexample: with retirementAge = currentAge = 67 the
comparison page still produces a full numeric projection (final capital
equal to the current assets and a positive monthly pension) instead of
failing with InvalidRange; and a 101-year horizon makes the part_002
callback return the number 0 to its caller, not an error. -/
theorem C4_counterexample :
    (comparison ⟨67, 300, 1000, 67⟩).debeka.finalCapital = 1000 ∧
    (comparison ⟨67, 300, 1000, 67⟩).debeka.monthlyPension = 383 / 120 ∧
    calculateFutureValue 300 (47/1000) 101 = 0 := by
  norm_num [comparison, calculateFutureValue, calculateFutureValueChecked,
    debekaNetGrowth, debekaGrowthRate, debekaCosts, debekaMonthlyReturn,
    debekaErtragsanteil]

/-- Claim C4 as amended: the comparison page performs no age-range
validation and produces numeric projection results even when
retirementAge equals currentAge; the only horizon check in the code is
part_002's years-above-100 guard, whose raised error is caught so that
the caller receives 0 rather than an InvalidRange error. -/
theorem C4_no_range_rejection :
    (∀ i : ComparisonInputs, i.retirementAge = i.currentAge →
      (comparison i).debeka.finalCapital = i.currentAssets ∧
      (comparison i).etf.finalCapital = i.currentAssets ∧
      (comparison i).klassisch.finalCapital = i.currentAssets) ∧
    (∀ (m r : ℚ) (y : ℤ), 0 ≤ m → 0 ≤ r → 100 < y →
      calculateFutureValue m r y = 0) := by
  constructor
  · intro i h
    refine ⟨?_, ?_, ?_⟩ <;> norm_num [comparison, h]
  · intro m r y hm hr hy
    exact cfv_of_error m r y _ (checked_range m r y hm hr hy)

/-- Witness for C4's amended theorem at concrete inputs. -/
theorem C4_no_range_rejection_witness :
    ((⟨50, 10, 77, 50⟩ : ComparisonInputs).retirementAge =
      (⟨50, 10, 77, 50⟩ : ComparisonInputs).currentAge) ∧
    (comparison ⟨50, 10, 77, 50⟩).debeka.finalCapital = 77 ∧
    calculateFutureValue 0 0 101 = 0 :=
  ⟨rfl, (C4_no_range_rejection.1 ⟨50, 10, 77, 50⟩ rfl).1,
   C4_no_range_rejection.2 0 0 101 le_rfl le_rfl (by norm_num)⟩

/-- Claim C5, counterexample: with zero contribution and zero assets all
three net monthly pensions tie at 0, the maximum is attained by every
vehicle, yet the selected winner is klassisch — the LAST-listed vehicle —
not the first-listed debeka as the claim states. -/
theorem C5_counterexample :
    netMonthlyPension (comparison ⟨35, 0, 0, 36⟩) Vehicle.debeka =
      netMonthlyPension (comparison ⟨35, 0, 0, 36⟩) Vehicle.etf ∧
    netMonthlyPension (comparison ⟨35, 0, 0, 36⟩) Vehicle.etf =
      netMonthlyPension (comparison ⟨35, 0, 0, 36⟩) Vehicle.klassisch ∧
    winner (comparison ⟨35, 0, 0, 36⟩) = Vehicle.klassisch ∧
    winner (comparison ⟨35, 0, 0, 36⟩) ≠ Vehicle.debeka := by
  norm_num [comparison, netMonthlyPension, winner]
  decide

/-- Claim C5 as amended: the selected winner always attains the maximal
net monthly pension, but ties are broken toward the LAST-listed vehicle:
every vehicle attaining the winner's pension value has a listing index at
most the winner's (debeka is selected only when strictly greater than
both others). -/
theorem C5_tie_break :
    ∀ (i : ComparisonInputs) (v : Vehicle),
      netMonthlyPension (comparison i) v ≤
        netMonthlyPension (comparison i) (winner (comparison i)) ∧
      (netMonthlyPension (comparison i) v =
          netMonthlyPension (comparison i) (winner (comparison i)) →
        vehicleIndex v ≤ vehicleIndex (winner (comparison i))) :=
  fun i v =>
    ⟨le_winner_pension (comparison i) v, winner_index_ge (comparison i) v⟩

/-- Witness for C5's amended theorem at a concrete tied input. -/
theorem C5_tie_break_witness :
    netMonthlyPension (comparison ⟨40, 0, 0, 41⟩) Vehicle.debeka =
      netMonthlyPension (comparison ⟨40, 0, 0, 41⟩)
        (winner (comparison ⟨40, 0, 0, 41⟩)) ∧
    vehicleIndex Vehicle.debeka ≤
      vehicleIndex (winner (comparison ⟨40, 0, 0, 41⟩)) := by
  have h : netMonthlyPension (comparison ⟨40, 0, 0, 41⟩) Vehicle.debeka =
      netMonthlyPension (comparison ⟨40, 0, 0, 41⟩)
        (winner (comparison ⟨40, 0, 0, 41⟩)) := by
    norm_num [comparison, netMonthlyPension, winner]
  exact ⟨h, (C5_tie_break ⟨40, 0, 0, 41⟩ Vehicle.debeka).2 h⟩

/-- Claim C6: for every comparison input, the selected winner's net
monthly pension is greater than or equal to each of the three vehicles'
net monthly pensions from the same call. -/
theorem C6_winner_is_max :
    ∀ (i : ComparisonInputs) (v : Vehicle),
      netMonthlyPension (comparison i) v ≤
        netMonthlyPension (comparison i) (winner (comparison i)) :=
  fun i v => le_winner_pension (comparison i) v

/-- Claim C7, counterexample: with assets 12000, contribution 0 and one
accumulation year, the source's ETF total tax is 0 (it taxes only
contributions), while a running sum of per-year gross-return gains times
the tax rate would be positive (212.055) — the two disagree. -/
theorem C7_counterexample :
    (comparison ⟨35, 0, 12000, 36⟩).etf.totalTax = 0 ∧
    specEtfTotalTax 12000 0 1 = 42411 / 200 ∧
    (comparison ⟨35, 0, 12000, 36⟩).etf.totalTax ≠ specEtfTotalTax 12000 0 1 := by
  norm_num [comparison, specEtfTotalTax, specEtfAccum, specEtfStep,
    etfGrossReturn, etfGrowthRate, etfCosts, abgeltungssteuer]

/-- Claim C7 as amended: the ETF total tax is the closed form
`monthlyContribution * 12 * years * abgeltungssteuer` (the statutory rate
applied to the total contributions, not a per-year running sum of gains),
while the Ertragsanteil vehicles' total tax is the per-month tax times 12
times the fixed 20-year payout constant, as the claim states. -/
theorem C7_total_tax_form :
    ∀ i : ComparisonInputs,
      (comparison i).etf.totalTax =
        i.monthlyContribution * 12 *
          ((i.retirementAge - i.currentAge : ℤ) : ℚ) * abgeltungssteuer ∧
      (comparison i).debeka.totalTax =
        (comparison i).debeka.grossMonthlyPension * debekaErtragsanteil *
          0.25 * 12 * retirementYears ∧
      (comparison i).klassisch.totalTax =
        (comparison i).klassisch.grossMonthlyPension * debekaErtragsanteil *
          0.25 * 12 * retirementYears ∧
      retirementYears = 20 := by
  intro i
  refine ⟨?_, rfl, rfl, rfl⟩
  show i.monthlyContribution * 12 * ((i.retirementAge - i.currentAge : ℤ) : ℚ) *
      etfTaxOnGains / etfGrossReturn =
    i.monthlyContribution * 12 * ((i.retirementAge - i.currentAge : ℤ) : ℚ) *
      abgeltungssteuer
  rw [etfTaxOnGains, etfAnnualGains]
  rw [mul_comm etfGrossReturn abgeltungssteuer, ← mul_assoc, mul_div_assoc]
  rw [div_self (by norm_num [etfGrossReturn, etfGrowthRate, etfCosts])]
  ring

/-- Claim C8, counterexample: with assets 12000 and contribution 0 the
computed tax advantage is negative (the ETF pays no tax in the code's
model while Debeka pays Ertragsanteil tax), so the figure is NOT computed
as higher-tax minus lower-tax; and while the line-435 alert suppresses
it, the line-662 CTA hands the negative figure to the currency formatter
anyway — a negative savings IS displayed. -/
theorem C8_counterexample :
    (comparison ⟨35, 0, 12000, 36⟩).taxAdvantage < 0 ∧
    ctaDisplayedTaxAdvantage (comparison ⟨35, 0, 12000, 36⟩) < 0 ∧
    showTaxAdvantageAlert (comparison ⟨35, 0, 12000, 36⟩) = false := by
  norm_num [comparison, showTaxAdvantageAlert, ctaDisplayedTaxAdvantage,
    debekaNetGrowth, debekaGrowthRate, debekaCosts, debekaMonthlyReturn,
    debekaErtragsanteil, etfTaxOnGains, etfAnnualGains, etfGrossReturn,
    etfGrowthRate, etfCosts, retirementYears, abgeltungssteuer]

/-- Claim C8 as amended: the tax advantage is the FIXED-order difference
(ETF total tax minus Debeka total tax), which can be negative; the
line-435 alert is rendered exactly when the value is positive, but the
line-662 CTA renders the raw figure unconditionally, so whenever the
value is negative a negative savings figure is displayed there — it is
neither reported as zero nor omitted. -/
theorem C8_tax_advantage :
    (∀ i : ComparisonInputs,
      (comparison i).taxAdvantage =
        (comparison i).etf.totalTax - (comparison i).debeka.totalTax ∧
      (showTaxAdvantageAlert (comparison i) = true ↔
        0 < (comparison i).taxAdvantage)) ∧
    (∀ i : ComparisonInputs, (comparison i).taxAdvantage < 0 →
      ctaDisplayedTaxAdvantage (comparison i) < 0) :=
  ⟨fun i => ⟨rfl, by simp [showTaxAdvantageAlert]⟩, fun i h => h⟩

/-- Witness for C8's amended theorem: a concrete input whose negative tax
advantage reaches the CTA display. -/
theorem C8_tax_advantage_witness :
    (comparison ⟨36, 0, 24000, 37⟩).taxAdvantage < 0 ∧
    ctaDisplayedTaxAdvantage (comparison ⟨36, 0, 24000, 37⟩) < 0 := by
  have h : (comparison ⟨36, 0, 24000, 37⟩).taxAdvantage < 0 := by
    norm_num [comparison, debekaNetGrowth, debekaGrowthRate, debekaCosts,
      debekaMonthlyReturn, debekaErtragsanteil, etfTaxOnGains, etfAnnualGains,
      etfGrossReturn, etfGrowthRate, etfCosts, retirementYears,
      abgeltungssteuer]
  exact ⟨h, C8_tax_advantage.2 ⟨36, 0, 24000, 37⟩ h⟩

/-- Claim C9: both future-value computations are monotone (non-decreasing)
in each argument separately on the valid domain — the part_002 callback in
its monthly payment, its annual rate and its years, and the comparison
page's `fvFormula` shape in its initial capital, its contribution, its
rate and its years. -/
theorem C9_monotonicity :
    (∀ (m₁ m₂ r : ℚ) (y : ℤ), 0 ≤ m₁ → m₁ ≤ m₂ → 0 ≤ r → 0 ≤ y → y ≤ 100 →
      calculateFutureValue m₁ r y ≤ calculateFutureValue m₂ r y) ∧
    (∀ (m r₁ r₂ : ℚ) (y : ℤ), 0 ≤ m → 0 ≤ r₁ → r₁ ≤ r₂ → 0 ≤ y → y ≤ 100 →
      calculateFutureValue m r₁ y ≤ calculateFutureValue m r₂ y) ∧
    (∀ (m r : ℚ) (y₁ y₂ : ℤ), 0 ≤ m → 0 ≤ r → 0 ≤ y₁ → y₁ ≤ y₂ → y₂ ≤ 100 →
      calculateFutureValue m r y₁ ≤ calculateFutureValue m r y₂) ∧
    (∀ (c₁ c₂ m g : ℚ) (y : ℤ), c₁ ≤ c₂ → 0 ≤ g →
      fvFormula c₁ m g y ≤ fvFormula c₂ m g y) ∧
    (∀ (c m₁ m₂ g : ℚ) (y : ℤ), m₁ ≤ m₂ → 0 ≤ g → 0 ≤ y →
      fvFormula c m₁ g y ≤ fvFormula c m₂ g y) ∧
    (∀ (c m g₁ g₂ : ℚ) (y : ℤ), 0 ≤ c → 0 ≤ m → 0 < g₁ → g₁ ≤ g₂ → 0 ≤ y →
      fvFormula c m g₁ y ≤ fvFormula c m g₂ y) ∧
    (∀ (c m g : ℚ) (y₁ y₂ : ℤ), 0 ≤ c → 0 ≤ m → 0 ≤ g → 0 ≤ y₁ → y₁ ≤ y₂ →
      fvFormula c m g y₁ ≤ fvFormula c m g y₂) :=
  ⟨fun m₁ m₂ r y hm1 hm hr hy0 hy =>
     calcFV_mono_payment m₁ m₂ r y hm1 hm hr hy0 hy,
   fun m r₁ r₂ y hm hr1 hr hy0 hy =>
     calcFV_mono_rate m r₁ r₂ y hm hr1 hr hy0 hy,
   fun m r y₁ y₂ hm hr hy0 h12 hy =>
     calcFV_mono_years m r y₁ y₂ hm hr hy0 h12 hy,
   fun c₁ c₂ m g y hc hg => fvFormula_mono_capital c₁ c₂ m g y hc hg,
   fun c m₁ m₂ g y hm hg hy0 =>
     fvFormula_mono_contribution c m₁ m₂ g y hm hg hy0,
   fun c m g₁ g₂ y hc hm hg1 hg hy0 =>
     fvFormula_mono_rate c m g₁ g₂ y hc hm hg1 hg hy0,
   fun c m g y₁ y₂ hc hm hg hy0 h12 =>
     fvFormula_mono_years c m g y₁ y₂ hc hm hg hy0 h12⟩

/-- Witness for C9 at concrete inputs. -/
theorem C9_monotonicity_witness :
    calculateFutureValue 5 (1/20) 2 ≤ calculateFutureValue 6 (1/20) 2 ∧
    fvFormula 100 5 (47/1000) 1 ≤ fvFormula 100 5 (47/1000) 3 :=
  ⟨C9_monotonicity.1 5 6 (1/20) 2 (by norm_num) (by norm_num) (by norm_num)
     (by norm_num) (by norm_num),
   C9_monotonicity.2.2.2.2.2.2 100 5 (47/1000) 1 3 (by norm_num) (by norm_num)
     (by norm_num) (by norm_num) (by norm_num)⟩

/-- Claim C10: the three monthly-return denominators of the comparison
page are the stated input-independent positive constants, so the divisions
in the three future-value expressions and in the annuity quotients are by
nonzero constants for every user input: multiplying the annuity quotient
back by the denominator recovers the numerator exactly. -/
theorem C10_constant_denominators :
    debekaMonthlyReturn = (0.06 - 0.013) / 12 ∧ 0 < debekaMonthlyReturn ∧
    etfMonthlyReturn = ((0.07 - 0.003) * (1 - 0.26375)) / 12 ∧
    0 < etfMonthlyReturn ∧
    klassischMonthlyReturn = (0.02 - 0.01) / 12 ∧ 0 < klassischMonthlyReturn ∧
    (∀ y : ℤ, debekaMonthlyReturn *
        (((1 + debekaMonthlyReturn) ^ (y * 12) - 1) / debekaMonthlyReturn) =
      (1 + debekaMonthlyReturn) ^ (y * 12) - 1) ∧
    (∀ y : ℤ, etfMonthlyReturn *
        (((1 + etfMonthlyReturn) ^ (y * 12) - 1) / etfMonthlyReturn) =
      (1 + etfMonthlyReturn) ^ (y * 12) - 1) ∧
    (∀ y : ℤ, klassischMonthlyReturn *
        (((1 + klassischMonthlyReturn) ^ (y * 12) - 1) / klassischMonthlyReturn) =
      (1 + klassischMonthlyReturn) ^ (y * 12) - 1) := by
  refine ⟨?_, ?_, ?_, ?_, ?_, ?_, ?_, ?_, ?_⟩
  · norm_num [debekaMonthlyReturn, debekaNetGrowth, debekaGrowthRate,
      debekaCosts]
  · norm_num [debekaMonthlyReturn, debekaNetGrowth, debekaGrowthRate,
      debekaCosts]
  · norm_num [etfMonthlyReturn, etfNetGrowth, etfTaxOnGains, etfAnnualGains,
      etfGrossReturn, etfGrowthRate, etfCosts, abgeltungssteuer]
  · norm_num [etfMonthlyReturn, etfNetGrowth, etfTaxOnGains, etfAnnualGains,
      etfGrossReturn, etfGrowthRate, etfCosts, abgeltungssteuer]
  · norm_num [klassischMonthlyReturn, klassischNetGrowth, klassischGrowthRate,
      klassischCosts]
  · norm_num [klassischMonthlyReturn, klassischNetGrowth, klassischGrowthRate,
      klassischCosts]
  · intro y
    rw [mul_comm, div_mul_cancel₀ _ (by
      norm_num [debekaMonthlyReturn, debekaNetGrowth, debekaGrowthRate,
        debekaCosts])]
  · intro y
    rw [mul_comm, div_mul_cancel₀ _ (by
      norm_num [etfMonthlyReturn, etfNetGrowth, etfTaxOnGains, etfAnnualGains,
        etfGrossReturn, etfGrowthRate, etfCosts, abgeltungssteuer])]
  · intro y
    rw [mul_comm, div_mul_cancel₀ _ (by
      norm_num [klassischMonthlyReturn, klassischNetGrowth,
        klassischGrowthRate, klassischCosts])]

end Nexttry
